import Mathlib

/-!
Shallow embedding of the scopus-playwright crawl orchestration engine.

The embedding follows the Python sources:
  - `miscited_download.py` (MiscitedDocumentScraper): per-EID worker,
    chunked scheduler, status.csv generation;
  - `citing_download.py` (CitingDocumentsScraper): per-pair worker and
    pair discovery;
  - `login.py` (LoginManager): cooldown-gated re-login;
  - `download_titles.py` (ScopusScraper): bounded-retry title fetch.

Filesystem state is a finite set of existing paths (directories and files
alike); a path is its list of components.  External page behaviour
(navigation outcome, export outcome, HTTP responses) is supplied by
oracles, so the embedded functions are deterministic in the oracle.
-/

namespace Scopus

/-- A filesystem path, as its list of components (pathlib.Path). -/
abbrev FsPath := List String

/-- `pathlib` path join: `Path(p) / s`.  Joining the empty string leaves
the path unchanged, exactly as in pathlib (`Path("a") / "" == Path("a")`). -/
def pJoin (p : FsPath) (s : String) : FsPath :=
  if s = "" then p else p ++ [s]

/-- The filesystem: the finite set of currently existing paths. -/
structure FS where
  paths : List FsPath
deriving DecidableEq, Repr

/-- `Path.exists()`: membership test on the set of existing paths. -/
def FS.exists (fs : FS) (p : FsPath) : Bool :=
  decide (p ∈ fs.paths)

/-- All nonempty ancestors of a path, the path itself included:
`mkdir(parents=True)` creates exactly these. -/
def ancestorsOf (p : FsPath) : List FsPath :=
  (List.range p.length).map (fun i => p.take (i + 1))

/-- `Path.mkdir(parents=True, exist_ok=True)`: add the directory and all
its ancestors to the set of existing paths. -/
def FS.mkdirP (fs : FS) (p : FsPath) : FS :=
  ⟨ancestorsOf p ++ fs.paths⟩

/-- `Path.touch(exist_ok=True)`: add the file path to the set. -/
def FS.touch (fs : FS) (p : FsPath) : FS :=
  ⟨p :: fs.paths⟩

/-! ## miscited_download.py : data model -/

/-- Module-level constant `DOWNLOADS_DIR = "miscited_downloads"`. -/
def DOWNLOADS_DIR : FsPath := ["miscited_downloads"]

/-- Module-level constant `MAX_CONCURRENCY = 5`. -/
def MAX_CONCURRENCY : Nat := 5

/-- Module-level constant `CHUNK_SIZE = 100`. -/
def CHUNK_SIZE : Nat := 100

/-- One input row of `eid_with_titles.csv`: `row.get("EID", "")` and
`row.get("Title", "")` already applied, so a missing column reads `""`. -/
structure Row where
  eid : String
  title : String
deriving DecidableEq, Repr

/-- `folder_path = Path(DOWNLOADS_DIR) / eid` (miscited_download.py:102). -/
def folderPathOf (r : Row) : FsPath :=
  pJoin DOWNLOADS_DIR r.eid

/-- `folder_path / "success.txt"`. -/
def successFileOf (folder : FsPath) : FsPath := pJoin folder "success.txt"

/-- `folder_path / "empty.txt"`. -/
def emptyFileOf (folder : FsPath) : FsPath := pJoin folder "empty.txt"

/-- Unit outcome as reported in status.csv. -/
inductive Status
  | not_started
  | success
  | empty
  | fail
deriving DecidableEq, Repr

/-- Per-row status derivation of `generate_status_csv`
(miscited_download.py:236-250): no folder means `not_started`; else
`success.txt` wins, then `empty.txt`, else `fail`. -/
def statusOfRow (fs : FS) (r : Row) : Status :=
  let folder := folderPathOf r
  if fs.exists folder = false then .not_started
  else if fs.exists (successFileOf folder) then .success
  else if fs.exists (emptyFileOf folder) then .empty
  else .fail

/-- `generate_status_csv` (miscited_download.py:225-259): one (EID, Status)
row per input row, in input order. -/
def generate_status_csv (fs : FS) (rows : List Row) : List (String × Status) :=
  rows.map (fun r => (r.eid, statusOfRow fs r))

/-- The write at miscited_download.py:254-257: mode `"w"` plus
`writeheader`/`writerows` replaces the report wholesale; the previous
report content is never read. -/
def writeStatusCsv (_oldReport : List (String × Status)) (fs : FS)
    (rows : List Row) : List (String × Status) :=
  generate_status_csv fs rows

/-! ## miscited_download.py : per-unit worker -/

/-- Oracle for the external page behaviour of one `scrape_single_eid`
invocation (navigation, the no-results probe, and the export flow). -/
inductive PageOutcome
  /-- `page.goto` (or `context.new_page`) raises: only the outer
  `except Exception` at miscited_download.py:180 catches it. -/
  | navError
  /-- the `no-results-with-suggestion` selector appears within 500 ms. -/
  | noResults
  /-- the whole export flow succeeds and the download is saved. -/
  | exportOk
  /-- some step of the export flow raises, caught at
  miscited_download.py:175. -/
  | exportError
deriving DecidableEq, Repr

/-- Result of one worker invocation: the filesystem afterwards, and
whether the page action (navigation / export flow) was entered. -/
structure UnitResult where
  fs : FS
  navigated : Bool
  exportAttempted : Bool
deriving DecidableEq, Repr

/-- The skip test at miscited_download.py:106-111: the folder exists and
holds `success.txt` or `empty.txt`. -/
def skipCond (fs : FS) (folder : FsPath) : Bool :=
  fs.exists folder &&
    (fs.exists (successFileOf folder) || fs.exists (emptyFileOf folder))

/-- Body of `scrape_single_eid` inside the outer `try`
(miscited_download.py:104-179).  A `.error` value is an exception
escaping the body, carrying the filesystem at raise time. -/
def scrape_eid_body (fs : FS) (r : Row) (oracle : PageOutcome) :
    Except FS UnitResult :=
  let folder := folderPathOf r
  if skipCond fs folder then
    .ok ⟨fs, false, false⟩
  else
    let fs1 := if fs.exists folder then fs else fs.mkdirP folder
    match oracle with
    | .navError => .error fs1
    | .noResults => .ok ⟨fs1.touch (emptyFileOf folder), true, false⟩
    | .exportOk =>
        let fs2 := fs1.touch (pJoin folder (r.eid ++ ".csv"))
        .ok ⟨fs2.touch (successFileOf folder), true, true⟩
    | .exportError => .ok ⟨fs1, true, true⟩

/-- `scrape_single_eid` (miscited_download.py:90-181): the body wrapped in
the outer `except Exception` handler, which logs and returns, so the
worker never propagates an exception to the scheduler. -/
def scrape_single_eid (fs : FS) (r : Row) (oracle : PageOutcome) : UnitResult :=
  match scrape_eid_body fs r oracle with
  | .ok u => u
  | .error fsAtRaise => ⟨fsAtRaise, true, false⟩

/-! ## citing_download.py : per-pair worker -/

/-- Module-level constant `CITING_DOWNLOADS_DIR = "citing_downloads"`. -/
def CITING_DOWNLOADS_DIR : FsPath := ["citing_downloads"]

/-- One discovered (CitedEID, MiscitedEID) pair. -/
structure Pair where
  citedEid : String
  miscitedEid : String
deriving DecidableEq, Repr

/-- `folder_path = Path(CITING_DOWNLOADS_DIR) / cited_eid / miscited_eid`
(citing_download.py:108). -/
def pairFolderOf (p : Pair) : FsPath :=
  pJoin (pJoin CITING_DOWNLOADS_DIR p.citedEid) p.miscitedEid

/-- Oracle for the page behaviour of one `scrape_single_pair` invocation. -/
inductive PairOutcome
  /-- `page.goto` (or `context.new_page`) raises: only the outer
  `except Exception` at citing_download.py:177 catches it. -/
  | navError
  /-- the export flow succeeds and the download is saved. -/
  | exportOk
  /-- the export flow raises `TimeoutError` and the no-results selector
  then appears: `empty.txt` is created (citing_download.py:163-170). -/
  | timeoutThenNoResults
  /-- the export flow raises `TimeoutError` and the no-results selector
  also times out: logged, nothing written (citing_download.py:171-172). -/
  | timeoutThenUnknown
  /-- the export flow raises some other exception, caught at
  citing_download.py:173. -/
  | exportError
deriving DecidableEq, Repr

/-- Body of `scrape_single_pair` inside the outer `try`
(citing_download.py:110-176). -/
def scrape_pair_body (fs : FS) (p : Pair) (oracle : PairOutcome) :
    Except FS UnitResult :=
  let folder := pairFolderOf p
  if skipCond fs folder then
    .ok ⟨fs, false, false⟩
  else
    let fs1 := if fs.exists folder then fs else fs.mkdirP folder
    match oracle with
    | .navError => .error fs1
    | .exportOk =>
        let fs2 := fs1.touch (pJoin folder (p.miscitedEid ++ ".csv"))
        .ok ⟨fs2.touch (successFileOf folder), true, true⟩
    | .timeoutThenNoResults => .ok ⟨fs1.touch (emptyFileOf folder), true, true⟩
    | .timeoutThenUnknown => .ok ⟨fs1, true, true⟩
    | .exportError => .ok ⟨fs1, true, true⟩

/-- `scrape_single_pair` (citing_download.py:103-178): the body wrapped in
the outer `except Exception` handler. -/
def scrape_single_pair (fs : FS) (p : Pair) (oracle : PairOutcome) : UnitResult :=
  match scrape_pair_body fs p oracle with
  | .ok u => u
  | .error fsAtRaise => ⟨fsAtRaise, true, false⟩

/-! ## miscited_download.py : chunked scheduler -/

/-- `rows[start : start + CHUNK_SIZE]` slicing loop of
`MiscitedDocumentScraper.run` (miscited_download.py:204-205): consecutive
chunks of at most 100 rows, in order. -/
def chunksOf100 : List Row → List (List Row)
  | [] => []
  | r :: rest => (r :: rest.take 99) :: chunksOf100 (rest.drop 99)
termination_by l => l.length
decreasing_by simp; omega

/-- One scheduler-visible event of a run. -/
inductive RunEvent
  /-- all tasks of one chunk spawned and awaited (`asyncio.gather`). -/
  | execChunk (chunk : List Row)
  /-- one `generate_status_csv` call. -/
  | snapshot
deriving DecidableEq, Repr

/-- Processing of one chunk.  The `asyncio.gather` barrier resolves every
task of the chunk; filesystem effects are linearised in task order. -/
def processChunk (fs : FS) (oracle : Row → PageOutcome) :
    List Row → FS × List UnitResult
  | [] => (fs, [])
  | r :: rest =>
    let u := scrape_single_eid fs r (oracle r)
    let (fsEnd, us) := processChunk u.fs oracle rest
    (fsEnd, u :: us)

/-- The chunk loop of `run` (miscited_download.py:204-216): process a
chunk, then snapshot, then move to the next chunk. -/
def processChunks (fs : FS) (oracle : Row → PageOutcome) :
    List (List Row) → FS × List UnitResult × List RunEvent
  | [] => (fs, [], [])
  | c :: cs =>
    let (fs1, us) := processChunk fs oracle c
    let (fs2, us2, evs) := processChunks fs1 oracle cs
    (fs2, us ++ us2, .execChunk c :: .snapshot :: evs)

/-- Outcome of one `MiscitedDocumentScraper.run` call. -/
structure RunResult where
  fs : FS
  unitResults : List UnitResult
  events : List RunEvent
  criticalLogged : Bool
deriving DecidableEq, Repr

/-- `MiscitedDocumentScraper.run` (miscited_download.py:183-223).
`bootstrapOk = false` models `login_and_get_context` raising: the
exception is caught at line 199, logged critical, and `run` returns
before any chunk starts.  Otherwise every chunk is processed with a
snapshot after it, plus one final snapshot after the loop. -/
def run (fs : FS) (rows : List Row) (bootstrapOk : Bool)
    (oracle : Row → PageOutcome) : RunResult :=
  if rows.isEmpty then ⟨fs, [], [], false⟩
  else if bootstrapOk = false then ⟨fs, [], [], true⟩
  else
    let res := processChunks fs oracle (chunksOf100 rows)
    ⟨res.1, res.2.1, res.2.2 ++ [.snapshot], false⟩

/-- The `__main__` guard (miscited_download.py:279-282): `asyncio.run` is
wrapped in `except Exception` which logs the error and falls through, and
no path calls `sys.exit`, so the interpreter always exits with status 0;
`run` itself returns normally even on bootstrap failure. -/
def mainExitCode (_res : RunResult) : Nat := 0

/-! ## login.py : LoginManager -/

/-- Mutable state of a `LoginManager` (login.py:29-61).  Time is in whole
seconds; cookies are an opaque list.  `cookie_file` is the content of
`cookies.json` (`none` when the file does not exist). -/
structure LoginState where
  relogin_cooldown : Nat
  last_relogin_time : Nat
  playwright_cookies : List String
  cookie_file : Option (List String)
deriving DecidableEq, Repr

/-- What a `relogin_and_reload_cookies` call yields to its caller. -/
inductive ReloginResult
  /-- the cooldown branch at login.py:145-147: a bare `return`, i.e. Python
  `None` — no cookie list is handed back. -/
  | skipped
  /-- the normal branch: `return self.playwright_cookies` (login.py:154). -/
  | ok (cookies : List String)
  /-- an exception propagated out of the call. -/
  | raised
deriving DecidableEq, Repr

/-- `playwright_login` (login.py:63-113) restricted to a successful
browser flow that captures `captured`: `self.playwright_cookies` and the
cookie file are updated only when the captured list is nonempty
(login.py:100-107). -/
def playwright_login (st : LoginState) (captured : List String) : LoginState :=
  if captured ≠ [] then
    { st with playwright_cookies := captured, cookie_file := some captured }
  else st

/-- `relogin_and_reload_cookies` (login.py:138-154), under the relogin
lock.  `now` is `time.time()` at line 144 and `now2` at line 152;
`captured` is what the login browser flow captures.  Within the cooldown
window the call does nothing and returns `None`; otherwise it re-logs-in,
reloads the cookie file into the session (raising `FileNotFoundError`
when the file is absent, login.py:119-121), stamps the time and returns
`self.playwright_cookies`. -/
def relogin_and_reload_cookies (st : LoginState) (now : Nat)
    (captured : List String) (now2 : Nat) : ReloginResult × LoginState :=
  if now - st.last_relogin_time < st.relogin_cooldown then
    (.skipped, st)
  else
    let st1 := playwright_login st captured
    match st1.cookie_file with
    | none => (.raised, st1)
    | some _ =>
      let st2 := { st1 with last_relogin_time := now2 }
      (.ok st2.playwright_cookies, st2)

/-! ## download_titles.py : bounded-retry title fetch -/

/-- One HTTP attempt's visible outcome inside `async_fetch_title`. -/
inductive FetchResp
  /-- a response arrived with this status code; for a 200, `titles` is the
  parsed `titles` array (`none` models a `JSONDecodeError`). -/
  | status (code : Nat) (titles : Option (List String))
  /-- `session.get` raised (network error, timeout, ...). -/
  | exc
deriving DecidableEq, Repr

/-- Trace of one `async_fetch_title` call. -/
structure FetchTrace where
  title : String
  attemptsUsed : Nat
  refreshCalls : Nat
  sleeps : Nat
deriving DecidableEq, Repr

/-- The `for attempt in range(1, 6)` loop of `async_fetch_title`
(download_titles.py:86-125), with `remaining` attempts left, the current
attempt number, and the running `last_status`, refresh-call and sleep
counters.  Exhaustion reproduces download_titles.py:127-133. -/
def fetchLoop (resp : Nat → FetchResp) (attempt : Nat) (lastStatus : Option Nat)
    (refreshes sleeps used : Nat) : Nat → FetchTrace
  | 0 =>
    if lastStatus = some 404 then ⟨"404 Not Found", used, refreshes, sleeps⟩
    else ⟨"Error", used, refreshes, sleeps⟩
  | remaining + 1 =>
    match resp attempt with
    | .exc =>
        fetchLoop resp (attempt + 1) lastStatus refreshes (sleeps + 1)
          (used + 1) remaining
    | .status 403 _ =>
        fetchLoop resp (attempt + 1) (some 403) (refreshes + 1) (sleeps + 1)
          (used + 1) remaining
    | .status 200 none =>
        fetchLoop resp (attempt + 1) (some 200) (refreshes + 1) (sleeps + 1)
          (used + 1) remaining
    | .status 200 (some titles) =>
        ⟨titles.headD "Title not found", used + 1, refreshes, sleeps⟩
    | .status 404 _ => ⟨"404 Not Found", used + 1, refreshes, sleeps⟩
    | .status code _ =>
        fetchLoop resp (attempt + 1) (some code) refreshes (sleeps + 1)
          (used + 1) remaining

/-- `async_fetch_title` (download_titles.py:73-133): up to 5 attempts,
then the exhaustion result; always returns an `(EID, Title)` pair. -/
def async_fetch_title (eid : String) (resp : Nat → FetchResp) :
    (String × String) × FetchTrace :=
  let t := fetchLoop resp 1 none 0 0 0 5
  ((eid, t.title), t)

/-! ## citing_download.py : pair discovery -/

/-- One subdirectory of `miscited_downloads/` as `discover_all_pairs`
sees it: its name, whether it is a directory, whether `<name>.csv`
exists inside it, and the `EID` field of each row of that csv (`none`
models a row whose `EID` column is missing entirely). -/
structure SubFolder where
  name : String
  isDir : Bool
  hasCsv : Bool
  csvRows : List (Option String)
deriving DecidableEq, Repr

/-- The part of the filesystem `discover_all_pairs` reads. -/
structure DiscoverFS where
  rootDirPresent : Bool
  subs : List SubFolder
deriving DecidableEq, Repr

/-- `row.get("EID", "").strip()` (citing_download.py:68). -/
def strippedEid (cell : Option String) : String :=
  (cell.getD "").trim

/-- The pairs one subdirectory contributes (the body of the
`for subfolder in base_path.iterdir()` loop, citing_download.py:57-73):
non-directories and directories without their csv are skipped, and each
csv row appends a pair only when its stripped EID is nonempty. -/
def pairsOfSub (sub : SubFolder) : List Pair :=
  if sub.isDir = false then []
  else if sub.hasCsv = false then []
  else sub.csvRows.filterMap (fun cell =>
    let m := strippedEid cell
    if m = "" then none else some ⟨sub.name, m⟩)

/-- The accumulation over all subdirectories of the root, in directory
order (the outer loop of citing_download.py:57-75). -/
def discoverFold (subs : List SubFolder) : List Pair :=
  subs.foldr (fun sub acc => pairsOfSub sub ++ acc) []

/-- `discover_all_pairs` (citing_download.py:51-75): empty when the root
directory is absent; otherwise every directory entry with its csv
contributes one pair per row whose stripped EID is nonempty.  The
function only reads: it returns a value and leaves the filesystem
untouched. -/
def discover_all_pairs (fs : DiscoverFS) : List Pair :=
  if fs.rootDirPresent = false then []
  else discoverFold fs.subs

/-- A `DiscoverFS` with every malformed row (stripped EID empty) removed
from every csv. -/
def pruneMalformedRows (fs : DiscoverFS) : DiscoverFS :=
  { fs with subs := fs.subs.map (fun sub =>
      { sub with csvRows := sub.csvRows.filter (fun c => strippedEid c ≠ "") }) }

/-! ## miscited_download.py : semaphore-bounded chunk concurrency -/

/-- Instantaneous state of one chunk's task pool: `waiting` tasks are
blocked on `async with sem`, `running` tasks are inside it, `finished`
tasks have left it, and `avail` is the semaphore's internal counter
(`asyncio.Semaphore(MAX_CONCURRENCY)`, miscited_download.py:206). -/
structure SemState where
  waiting : Nat
  running : Nat
  finished : Nat
  avail : Nat
deriving DecidableEq, Repr

/-- Start of a chunk with `n` spawned tasks: all waiting, the fresh
semaphore at its full count. -/
def chunkInit (n : Nat) : SemState :=
  ⟨n, 0, 0, MAX_CONCURRENCY⟩

/-- One scheduler step of the chunk's task pool: a waiting task acquires
the semaphore (possible only when its counter is positive), or a running
task completes and releases it. -/
inductive SemStep : SemState → SemState → Prop
  | acquire (w r d a : Nat) : SemStep ⟨w + 1, r, d, a + 1⟩ ⟨w, r + 1, d, a⟩
  | release (w r d a : Nat) : SemStep ⟨w, r + 1, d, a⟩ ⟨w, r, d + 1, a + 1⟩

/-- States reachable from the start of a chunk with `n` tasks. -/
inductive SemReachable (n : Nat) : SemState → Prop
  | init : SemReachable n (chunkInit n)
  | step {s t : SemState} : SemReachable n s → SemStep s t → SemReachable n t

/-! ## miscited_download.py : module import effect and input reading -/

/-- The statement `LOG_FILE_PATH.parent.mkdir(parents=True, exist_ok=True)`
at miscited_download.py:29, run at module import: it creates
`miscited_downloads/` (the parent of the log file) unconditionally. -/
def moduleImportInit (fs : FS) : FS :=
  fs.mkdirP DOWNLOADS_DIR

/-- `read_input_csv` (miscited_download.py:77-88): every csv row is
appended, with no filtering of any kind; an absent input file yields
`[]`. -/
def read_input_csv (inputFilePresent : Bool) (rows : List Row) : List Row :=
  if inputFilePresent = false then [] else rows

/-! ## Supporting lemmas -/

theorem FS.exists_iff (fs : FS) (p : FsPath) :
    fs.exists p = true ↔ p ∈ fs.paths := by
  simp [FS.exists]

theorem FS.exists_mkdirP (fs : FS) (p q : FsPath) :
    (fs.mkdirP p).exists q = true ↔ q ∈ ancestorsOf p ∨ fs.exists q = true := by
  simp [FS.mkdirP, FS.exists]

theorem FS.exists_touch (fs : FS) (p q : FsPath) :
    (fs.touch p).exists q = true ↔ q = p ∨ fs.exists q = true := by
  simp [FS.touch, FS.exists]

/-- Every ancestor of `p` is at most as long as `p`. -/
theorem length_le_of_mem_ancestorsOf {p q : FsPath} (h : q ∈ ancestorsOf p) :
    q.length ≤ p.length := by
  simp only [ancestorsOf, List.mem_map, List.mem_range] at h
  obtain ⟨i, hi, rfl⟩ := h
  simp [List.length_take]

/-- A nonempty path is one of its own ancestors. -/
theorem self_mem_ancestorsOf {p : FsPath} (h : p ≠ []) : p ∈ ancestorsOf p := by
  have hl : 0 < p.length := List.length_pos.mpr h
  simp only [ancestorsOf, List.mem_map, List.mem_range]
  exact ⟨p.length - 1, by omega, by simp [List.take_of_length_le, Nat.sub_add_cancel hl]⟩

/-- `mkdirP p` never creates a path strictly longer than `p`; in
particular it creates no marker file inside `p`. -/
theorem exists_mkdirP_of_longer (fs : FS) (p q : FsPath)
    (hlen : p.length < q.length) :
    (fs.mkdirP p).exists q = fs.exists q := by
  have hq : q ∉ ancestorsOf p := by
    intro hmem
    exact absurd (length_le_of_mem_ancestorsOf hmem) (by omega)
  simp [FS.mkdirP, FS.exists, hq]

/-- A unit folder path is never empty: it extends `DOWNLOADS_DIR`. -/
theorem folderPathOf_ne_nil (r : Row) : folderPathOf r ≠ [] := by
  unfold folderPathOf pJoin DOWNLOADS_DIR
  split <;> simp

/-- The success marker lives strictly below its folder. -/
theorem successFileOf_length (folder : FsPath) :
    folder.length < (successFileOf folder).length := by
  simp [successFileOf, pJoin]

/-- The empty marker lives strictly below its folder. -/
theorem emptyFileOf_length (folder : FsPath) :
    folder.length < (emptyFileOf folder).length := by
  simp [emptyFileOf, pJoin]

/-- Concatenating the chunks gives back the original row sequence. -/
theorem join_chunksOf100 (l : List Row) : (chunksOf100 l).flatten = l := by
  induction l using chunksOf100.induct with
  | case1 => simp [chunksOf100]
  | case2 r rest ih =>
    rw [chunksOf100]
    simp only [List.flatten_cons, ih]
    simp [List.cons_append, List.take_append_drop]

/-- Every chunk is nonempty and holds at most `CHUNK_SIZE` rows. -/
theorem chunksOf100_length_le (l : List Row) :
    ∀ c ∈ chunksOf100 l, 0 < c.length ∧ c.length ≤ CHUNK_SIZE := by
  induction l using chunksOf100.induct with
  | case1 => simp [chunksOf100]
  | case2 r rest ih =>
    rw [chunksOf100]
    intro c hc
    rcases List.mem_cons.mp hc with rfl | hc
    · refine ⟨by simp, ?_⟩
      have : (rest.take 99).length ≤ 99 := by simp
      simp only [List.length_cons, CHUNK_SIZE]
      omega
    · exact ih c hc

/-- `processChunk` yields exactly one `UnitResult` per row of the chunk. -/
theorem processChunk_length (fs : FS) (oracle : Row → PageOutcome)
    (chunk : List Row) :
    (processChunk fs oracle chunk).2.length = chunk.length := by
  induction chunk generalizing fs with
  | nil => simp [processChunk]
  | cons r rest ih => simp [processChunk, ih]

/-- `processChunks` yields one `UnitResult` per row over all chunks. -/
theorem processChunks_length (fs : FS) (oracle : Row → PageOutcome)
    (cs : List (List Row)) :
    (processChunks fs oracle cs).2.1.length = cs.flatten.length := by
  induction cs generalizing fs with
  | nil => simp [processChunks]
  | cons c rest ih =>
    simp [processChunks, processChunk_length, ih]

/-- `processChunks` emits exactly an exec event then a snapshot event per
chunk, in chunk order. -/
theorem processChunks_events (fs : FS) (oracle : Row → PageOutcome)
    (cs : List (List Row)) :
    (processChunks fs oracle cs).2.2 =
      (cs.map (fun c => [RunEvent.execChunk c, RunEvent.snapshot])).flatten := by
  induction cs generalizing fs with
  | nil => simp [processChunks]
  | cons c rest ih => simp [processChunks, ih]

/-- The fetch loop performs at most `remaining` further attempts. -/
theorem fetchLoop_attempts_le (resp : Nat → FetchResp) :
    ∀ (remaining attempt : Nat) (lastStatus : Option Nat)
      (refreshes sleeps used : Nat),
      (fetchLoop resp attempt lastStatus refreshes sleeps used remaining).attemptsUsed
        ≤ used + remaining := by
  intro remaining
  induction remaining with
  | zero =>
    intro attempt lastStatus refreshes sleeps used
    unfold fetchLoop
    split <;> simp
  | succ n ih =>
    intro attempt lastStatus refreshes sleeps used
    unfold fetchLoop
    split
    · exact le_trans (ih _ _ _ _ _) (by omega)
    · exact le_trans (ih _ _ _ _ _) (by omega)
    · exact le_trans (ih _ _ _ _ _) (by omega)
    · simp
    · simp
    · exact le_trans (ih _ _ _ _ _) (by omega)

/-- Semaphore-pool invariant: along every reachable state of a chunk,
the running tasks and the semaphore counter sum to the ceiling, and no
task is lost. -/
theorem semReachable_invariant {n : Nat} {s : SemState}
    (h : SemReachable n s) :
    s.running + s.avail = MAX_CONCURRENCY ∧
      s.waiting + s.running + s.finished = n := by
  induction h with
  | init => simp [chunkInit]
  | step _ hstep ih =>
    cases hstep with
    | acquire w r d a => simp_all; omega
    | release w r d a => simp_all; omega

/-- Dropping the malformed rows of one subdirectory's csv does not change
the pairs it contributes. -/
theorem pairsOfSub_prune (sub : SubFolder) :
    pairsOfSub { sub with
        csvRows := sub.csvRows.filter (fun c => strippedEid c ≠ "") } =
      pairsOfSub sub := by
  unfold pairsOfSub
  cases sub with
  | mk name isDir hasCsv csvRows =>
    simp only
    split
    · rfl
    · split
      · rfl
      · induction csvRows with
        | nil => rfl
        | cons c rest ih =>
          simp only [ne_eq, decide_not] at ih ⊢
          by_cases hc : strippedEid c = ""
          · simp [List.filter_cons, List.filterMap_cons, hc, ih]
          · simp [List.filter_cons, List.filterMap_cons, hc, ih]

/-- Membership in the discovery fold: a pair is discovered exactly when
some subdirectory contributes it. -/
theorem mem_discoverFold {p : Pair} (subs : List SubFolder) :
    p ∈ discoverFold subs ↔ ∃ sub ∈ subs, p ∈ pairsOfSub sub := by
  induction subs with
  | nil => simp [discoverFold]
  | cons s rest ih => simp [discoverFold, List.foldr_cons] at ih ⊢; simp [ih]

/-- Pruning malformed rows from every subdirectory leaves the discovery
fold unchanged. -/
theorem discoverFold_prune (subs : List SubFolder) :
    discoverFold (subs.map (fun sub => { sub with
        csvRows := sub.csvRows.filter (fun c => strippedEid c ≠ "") })) =
      discoverFold subs := by
  induction subs with
  | nil => rfl
  | cons s rest ih =>
    unfold discoverFold at ih ⊢
    rw [List.map_cons, List.foldr_cons, List.foldr_cons, pairsOfSub_prune, ih]

/-! ## Claim theorems -/

/-- C1: a work unit whose storage folder already holds a `success.txt` or
`empty.txt` marker is skipped by the per-unit worker: `scrape_single_eid`
and `scrape_single_pair` return without navigating or exporting, and leave
the filesystem (folder and markers included) exactly as it was, so a
re-run never re-executes a unit already marked Success or Empty. -/
theorem skip_marked_units (fs : FS) (r : Row) (o : PageOutcome)
    (p : Pair) (po : PairOutcome)
    (hr : fs.exists (folderPathOf r) = true)
    (hrm : (fs.exists (successFileOf (folderPathOf r)) ||
            fs.exists (emptyFileOf (folderPathOf r))) = true)
    (hp : fs.exists (pairFolderOf p) = true)
    (hpm : (fs.exists (successFileOf (pairFolderOf p)) ||
            fs.exists (emptyFileOf (pairFolderOf p))) = true) :
    scrape_single_eid fs r o = ⟨fs, false, false⟩ ∧
    scrape_single_pair fs p po = ⟨fs, false, false⟩ := by
  constructor
  · unfold scrape_single_eid scrape_eid_body
    simp [skipCond, hr, hrm]
  · unfold scrape_single_pair scrape_pair_body
    simp [skipCond, hp, hpm]

/-- Witness for C1 at a concrete filesystem: an EID folder marked success
and a pair folder marked empty are both skipped untouched. -/
theorem skip_marked_units_witness :
    scrape_single_eid
        ⟨[["miscited_downloads", "e1"],
          ["miscited_downloads", "e1", "success.txt"],
          ["citing_downloads", "c1", "m1"],
          ["citing_downloads", "c1", "m1", "empty.txt"]]⟩
        ⟨"e1", "t"⟩ .exportOk =
      ⟨⟨[["miscited_downloads", "e1"],
         ["miscited_downloads", "e1", "success.txt"],
         ["citing_downloads", "c1", "m1"],
         ["citing_downloads", "c1", "m1", "empty.txt"]]⟩, false, false⟩ ∧
    scrape_single_pair
        ⟨[["miscited_downloads", "e1"],
          ["miscited_downloads", "e1", "success.txt"],
          ["citing_downloads", "c1", "m1"],
          ["citing_downloads", "c1", "m1", "empty.txt"]]⟩
        ⟨"c1", "m1"⟩ .exportOk =
      ⟨⟨[["miscited_downloads", "e1"],
         ["miscited_downloads", "e1", "success.txt"],
         ["citing_downloads", "c1", "m1"],
         ["citing_downloads", "c1", "m1", "empty.txt"]]⟩, false, false⟩ :=
  skip_marked_units _ ⟨"e1", "t"⟩ .exportOk ⟨"c1", "m1"⟩ .exportOk
    (by decide) (by decide) (by decide) (by decide)

/-- C2: `generate_status_csv` fully overwrites the report with exactly one
row per discovered unit, in discovery order, each Status derived from the
unit folder at that instant: no folder means not_started, else success.txt
wins, else empty.txt, else fail. -/
theorem snapshot_complete (fs : FS) (rows : List Row)
    (old : List (String × Status)) (r : Row) :
    writeStatusCsv old fs rows = generate_status_csv fs rows ∧
    generate_status_csv fs rows = rows.map (fun u => (u.eid, statusOfRow fs u)) ∧
    (generate_status_csv fs rows).length = rows.length ∧
    (statusOfRow fs r = .not_started ↔ fs.exists (folderPathOf r) = false) ∧
    (statusOfRow fs r = .success ↔
      fs.exists (folderPathOf r) = true ∧
      fs.exists (successFileOf (folderPathOf r)) = true) ∧
    (statusOfRow fs r = .empty ↔
      fs.exists (folderPathOf r) = true ∧
      fs.exists (successFileOf (folderPathOf r)) = false ∧
      fs.exists (emptyFileOf (folderPathOf r)) = true) ∧
    (statusOfRow fs r = .fail ↔
      fs.exists (folderPathOf r) = true ∧
      fs.exists (successFileOf (folderPathOf r)) = false ∧
      fs.exists (emptyFileOf (folderPathOf r)) = false) := by
  refine ⟨rfl, rfl, by simp [generate_status_csv], ?_, ?_, ?_, ?_⟩ <;>
  · unfold statusOfRow
    cases hf : fs.exists (folderPathOf r) <;>
      cases hs : fs.exists (successFileOf (folderPathOf r)) <;>
        cases he : fs.exists (emptyFileOf (folderPathOf r)) <;>
          simp [hf, hs, he]

/-- Witness for C2 at a concrete filesystem: a folder without markers is
reported fail, derived through the characterization. -/
theorem snapshot_complete_witness :
    statusOfRow ⟨[["miscited_downloads", "e9"]]⟩ ⟨"e9", ""⟩ = .fail :=
  (snapshot_complete ⟨[["miscited_downloads", "e9"]]⟩ [] [] ⟨"e9", ""⟩).2.2.2.2.2.2.mpr
    ⟨by decide, by decide, by decide⟩

/-- C3 counterexample: a caller arriving 10 s after a completed refresh
(cooldown 30 s, last refreshed credentials `["sessionCookieA"]`) gets the
bare-`return` branch of `relogin_and_reload_cookies`, i.e. `None` — not
the last refreshed credentials, and not any cookie list at all. -/
theorem relogin_cooldown_counterexample :
    (110 : Nat) - (⟨30, 100, ["sessionCookieA"], some ["sessionCookieA"]⟩ :
        LoginState).last_relogin_time <
      (⟨30, 100, ["sessionCookieA"], some ["sessionCookieA"]⟩ :
        LoginState).relogin_cooldown ∧
    (relogin_and_reload_cookies
        ⟨30, 100, ["sessionCookieA"], some ["sessionCookieA"]⟩
        110 ["freshCookie"] 111).1 = .skipped ∧
    (relogin_and_reload_cookies
        ⟨30, 100, ["sessionCookieA"], some ["sessionCookieA"]⟩
        110 ["freshCookie"] 111).1 ≠
      .ok (⟨30, 100, ["sessionCookieA"], some ["sessionCookieA"]⟩ :
        LoginState).playwright_cookies := by
  decide

/-- C3 (amended): a caller within the 30 s cooldown window gets a no-op —
no new login is performed, the manager state is unchanged, and the call
returns `None` (so the caller is not handed the last refreshed
credentials); outside the window the call performs the login and returns
the freshly captured cookie list, stamping the refresh time. -/
theorem relogin_cooldown_noop (st : LoginState) (now : Nat)
    (captured : List String) (now2 : Nat) :
    (now - st.last_relogin_time < st.relogin_cooldown →
      relogin_and_reload_cookies st now captured now2 = (.skipped, st)) ∧
    (¬ now - st.last_relogin_time < st.relogin_cooldown → captured ≠ [] →
      relogin_and_reload_cookies st now captured now2 =
        (.ok captured,
         ⟨st.relogin_cooldown, now2, captured, some captured⟩)) := by
  constructor
  · intro h
    simp [relogin_and_reload_cookies, h]
  · intro h hc
    simp [relogin_and_reload_cookies, h, playwright_login, hc]

/-- Witness for C3 (amended) at concrete inputs: one call inside the
window is skipped, one outside the window re-logs-in and returns the
captured cookies. -/
theorem relogin_cooldown_noop_witness :
    relogin_and_reload_cookies ⟨30, 100, ["a"], some ["a"]⟩ 110 ["b"] 111 =
      (.skipped, ⟨30, 100, ["a"], some ["a"]⟩) ∧
    relogin_and_reload_cookies ⟨30, 100, ["a"], some ["a"]⟩ 200 ["b"] 201 =
      (.ok ["b"], ⟨30, 201, ["b"], some ["b"]⟩) :=
  ⟨(relogin_cooldown_noop ⟨30, 100, ["a"], some ["a"]⟩ 110 ["b"] 111).1
      (by decide),
   (relogin_cooldown_noop ⟨30, 100, ["a"], some ["a"]⟩ 200 ["b"] 201).2
      (by decide) (by decide)⟩

/-- C4 counterexample: with one pending row and a failing session
bootstrap, `run` logs a critical error and aborts before any unit — but
the exception is caught (miscited_download.py:199-201 and 279-282 both
swallow it) and no path calls `sys.exit`, so the process exits 0, not
nonzero as the claim states. -/
theorem bootstrap_exit_counterexample :
    (run ⟨[]⟩ [⟨"2-s2.0-0001", "a title"⟩] false
        (fun _ => .exportOk)).criticalLogged = true ∧
    (run ⟨[]⟩ [⟨"2-s2.0-0001", "a title"⟩] false
        (fun _ => .exportOk)).unitResults = [] ∧
    mainExitCode
        (run ⟨[]⟩ [⟨"2-s2.0-0001", "a title"⟩] false (fun _ => .exportOk)) =
      0 := by
  constructor
  · rfl
  · constructor <;> rfl

/-- C4 (amended): if session bootstrap fails, the run aborts before any
work unit is attempted — no unit result, no event, no filesystem change,
so no folder is created and the page action is never invoked — and the
failure is logged as a critical error; however the exception is swallowed
at both the `run` level and the `__main__` level, so the process exits 0
(zero, not nonzero). -/
theorem bootstrap_abort (fs : FS) (rows : List Row)
    (oracle : Row → PageOutcome) (h : rows ≠ []) :
    run fs rows false oracle = ⟨fs, [], [], true⟩ ∧
    mainExitCode (run fs rows false oracle) = 0 := by
  cases rows with
  | nil => exact absurd rfl h
  | cons a l => exact ⟨by simp [run], rfl⟩

/-- Witness for C4 (amended) at a concrete input. -/
theorem bootstrap_abort_witness :
    run ⟨[]⟩ [⟨"e1", "t1"⟩] false (fun _ => .navError) =
      ⟨⟨[]⟩, [], [], true⟩ ∧
    mainExitCode (run ⟨[]⟩ [⟨"e1", "t1"⟩] false (fun _ => .navError)) = 0 :=
  bootstrap_abort ⟨[]⟩ [⟨"e1", "t1"⟩] (fun _ => .navError) (by decide)

/-- C5: a per-unit exception is caught inside the worker and never reaches
the scheduler: a navigation exception escapes the worker body (modelled by
`scrape_eid_body` returning `.error`) but `scrape_single_eid` still
returns an ordinary result; after either a navigation or an export-flow
exception the unit folder holds neither marker, so the unit reads as fail;
every row of a chunk still gets its own result, and a full run still
produces one result per discovered row. -/
theorem unit_failure_isolated (fs fs0 : FS) (r : Row)
    (chunk rows : List Row) (oracle : Row → PageOutcome)
    (hs : fs.exists (successFileOf (folderPathOf r)) = false)
    (he : fs.exists (emptyFileOf (folderPathOf r)) = false) :
    (∃ fsAtRaise, scrape_eid_body fs r .navError = .error fsAtRaise) ∧
    statusOfRow (scrape_single_eid fs r .navError).fs r = .fail ∧
    statusOfRow (scrape_single_eid fs r .exportError).fs r = .fail ∧
    (processChunk fs0 oracle chunk).2.length = chunk.length ∧
    (run fs0 rows true oracle).unitResults.length = rows.length := by
  have hskip : skipCond fs (folderPathOf r) = false := by
    simp [skipCond, hs, he]
  have hfail : ∀ fs1 : FS,
      fs1 = (if fs.exists (folderPathOf r) then fs
             else fs.mkdirP (folderPathOf r)) →
      statusOfRow fs1 r = .fail := by
    intro fs1 h1
    cases hf : fs.exists (folderPathOf r) with
    | true =>
      rw [h1, if_pos hf]
      simp [statusOfRow, hf, hs, he]
    | false =>
      rw [h1, if_neg (by simp [hf])]
      have hfolder : (fs.mkdirP (folderPathOf r)).exists (folderPathOf r)
          = true :=
        (FS.exists_mkdirP fs _ _).mpr
          (Or.inl (self_mem_ancestorsOf (folderPathOf_ne_nil r)))
      have hs2 : (fs.mkdirP (folderPathOf r)).exists
          (successFileOf (folderPathOf r)) = false := by
        rw [exists_mkdirP_of_longer fs _ _ (successFileOf_length _)]
        exact hs
      have he2 : (fs.mkdirP (folderPathOf r)).exists
          (emptyFileOf (folderPathOf r)) = false := by
        rw [exists_mkdirP_of_longer fs _ _ (emptyFileOf_length _)]
        exact he
      simp [statusOfRow, hfolder, hs2, he2]
  refine ⟨?_, ?_, ?_, processChunk_length fs0 oracle chunk, ?_⟩
  · refine ⟨if fs.exists (folderPathOf r) then fs
            else fs.mkdirP (folderPathOf r), ?_⟩
    simp [scrape_eid_body, hskip]
  · have := hfail (if fs.exists (folderPathOf r) then fs
                   else fs.mkdirP (folderPathOf r)) rfl
    simp only [scrape_single_eid, scrape_eid_body, hskip, Bool.false_eq_true,
      if_false]
    exact this
  · have := hfail (if fs.exists (folderPathOf r) then fs
                   else fs.mkdirP (folderPathOf r)) rfl
    simp only [scrape_single_eid, scrape_eid_body, hskip, Bool.false_eq_true,
      if_false]
    exact this
  · unfold run
    cases hrows : rows.isEmpty with
    | true =>
      simp only [if_pos rfl]
      simp [List.isEmpty_iff.mp hrows]
    | false =>
      simp only [Bool.false_eq_true, if_false, if_neg]
      simp [processChunks_length, join_chunksOf100]

/-- Witness for C5 at a concrete input: a unit whose export flow raises
ends as fail, and a two-row chunk still yields two results. -/
theorem unit_failure_isolated_witness :
    statusOfRow (scrape_single_eid ⟨[]⟩ ⟨"e1", "t1"⟩ .exportError).fs
        ⟨"e1", "t1"⟩ = .fail ∧
    (processChunk ⟨[]⟩ (fun _ => .navError)
        [⟨"e1", "t1"⟩, ⟨"e2", "t2"⟩]).2.length = 2 :=
  ⟨(unit_failure_isolated ⟨[]⟩ ⟨[]⟩ ⟨"e1", "t1"⟩ [] [] (fun _ => .navError)
      (by decide) (by decide)).2.2.1,
   (unit_failure_isolated ⟨[]⟩ ⟨[]⟩ ⟨"e1", "t1"⟩ [⟨"e1", "t1"⟩, ⟨"e2", "t2"⟩]
      [] (fun _ => .navError) (by decide) (by decide)).2.2.2.1⟩

/-- C6: `async_fetch_title` makes at most 5 attempts, always yields a pair
keyed by the requested EID, and when every attempt answers 403 it calls
the cooldown-gated refresh and sleeps once per attempt, exhausts the 5
attempts, and yields `(eid, "Error")` instead of raising. -/
theorem fetch_retry_bounded (eid : String) (resp : Nat → FetchResp) :
    (async_fetch_title eid resp).1.1 = eid ∧
    (async_fetch_title eid resp).2.attemptsUsed ≤ 5 ∧
    ((∀ i, 1 ≤ i → i ≤ 5 → resp i = .status 403 none) →
      async_fetch_title eid resp = ((eid, "Error"), ⟨"Error", 5, 5, 5⟩)) := by
  refine ⟨rfl, ?_, ?_⟩
  · simpa using fetchLoop_attempts_le resp 5 1 none 0 0 0
  · intro h403
    have h1 := h403 1 (by norm_num) (by norm_num)
    have h2 := h403 2 (by norm_num) (by norm_num)
    have h3 := h403 3 (by norm_num) (by norm_num)
    have h4 := h403 4 (by norm_num) (by norm_num)
    have h5 := h403 5 (by norm_num) (by norm_num)
    simp [async_fetch_title, fetchLoop, h1, h2, h3, h4, h5]

/-- Witness for C6: a server answering 403 on every attempt yields
`(eid, "Error")` after exactly 5 attempts, 5 refresh calls and 5 sleeps. -/
theorem fetch_retry_bounded_witness :
    async_fetch_title "2-s2.0-77951" (fun _ => .status 403 none) =
      (("2-s2.0-77951", "Error"), ⟨"Error", 5, 5, 5⟩) :=
  (fetch_retry_bounded "2-s2.0-77951" (fun _ => .status 403 none)).2.2
    (fun _ _ _ => rfl)

/-- C7: the scheduler partitions the discovered rows into consecutive
chunks of at most `CHUNK_SIZE` (100) rows whose concatenation is exactly
the row sequence, and the run's event trace is, in order: chunk 1
executed then a snapshot, chunk 2 executed then a snapshot, ..., plus one
final snapshot after the last chunk. -/
theorem chunked_schedule (fs0 : FS) (rows : List Row)
    (oracle : Row → PageOutcome) (h : rows ≠ []) :
    (run fs0 rows true oracle).events =
      ((chunksOf100 rows).map
          (fun c => [RunEvent.execChunk c, RunEvent.snapshot])).flatten
        ++ [RunEvent.snapshot] ∧
    (chunksOf100 rows).flatten = rows ∧
    (∀ c ∈ chunksOf100 rows, 0 < c.length ∧ c.length ≤ CHUNK_SIZE) := by
  refine ⟨?_, join_chunksOf100 rows, chunksOf100_length_le rows⟩
  have hne : rows.isEmpty = false := by
    cases rows with
    | nil => exact absurd rfl h
    | cons a l => rfl
  unfold run
  rw [hne]
  simp [processChunks_events]

/-- Witness for C7 at a concrete 2-row input (a single chunk): exec, then
the chunk snapshot, then the final snapshot. -/
theorem chunked_schedule_witness :
    (run ⟨[]⟩ [⟨"e1", "t1"⟩, ⟨"e2", "t2"⟩] true (fun _ => .noResults)).events =
      ((chunksOf100 [⟨"e1", "t1"⟩, ⟨"e2", "t2"⟩]).map
          (fun c => [RunEvent.execChunk c, RunEvent.snapshot])).flatten
        ++ [RunEvent.snapshot] ∧
    (chunksOf100 [⟨"e1", "t1"⟩, ⟨"e2", "t2"⟩]).flatten =
      [⟨"e1", "t1"⟩, ⟨"e2", "t2"⟩] ∧
    (∀ c ∈ chunksOf100 [⟨"e1", "t1"⟩, ⟨"e2", "t2"⟩],
      0 < c.length ∧ c.length ≤ CHUNK_SIZE) :=
  chunked_schedule ⟨[]⟩ [⟨"e1", "t1"⟩, ⟨"e2", "t2"⟩] (fun _ => .noResults)
    (by decide)

/-- C8: pair discovery returns the empty sequence when the input root
directory is absent; rows whose EID cell is missing or strips to the
empty string contribute no work unit (pruning them changes nothing, and
every discovered pair carries a nonempty unit key); discovery is a pure
read — it is a function of the filesystem returning only a value. -/
theorem discovery_skips_malformed (fs : DiscoverFS) :
    (fs.rootDirPresent = false → discover_all_pairs fs = []) ∧
    discover_all_pairs (pruneMalformedRows fs) = discover_all_pairs fs ∧
    (∀ p ∈ discover_all_pairs fs, p.miscitedEid ≠ "") := by
  refine ⟨fun h => by simp [discover_all_pairs, h], ?_, ?_⟩
  · unfold discover_all_pairs
    have hroot2 : (pruneMalformedRows fs).rootDirPresent = fs.rootDirPresent :=
      rfl
    have hsubs : (pruneMalformedRows fs).subs = fs.subs.map (fun sub =>
        { sub with
          csvRows := sub.csvRows.filter (fun c => strippedEid c ≠ "") }) := rfl
    rw [hroot2, hsubs, discoverFold_prune]
  · intro p hp
    obtain ⟨pc, pm⟩ := p
    unfold discover_all_pairs at hp
    split at hp
    · simp at hp
    · obtain ⟨sub, _, hpsub⟩ := (mem_discoverFold fs.subs).mp hp
      unfold pairsOfSub at hpsub
      split at hpsub
      · simp at hpsub
      · split at hpsub
        · simp at hpsub
        · obtain ⟨cell, _, hcell⟩ := List.mem_filterMap.mp hpsub
          by_cases hempty : strippedEid cell = ""
          · simp [hempty] at hcell
          · simp [hempty] at hcell
            obtain ⟨h1, h2⟩ := hcell
            subst h2
            simpa using hempty

/-- Witness for C8 at concrete filesystems: an absent root yields no
pairs, and a csv whose rows are `none`, `""`, `"  "` and `"m1"` yields
exactly the one well-formed pair. -/
theorem discovery_skips_malformed_witness :
    discover_all_pairs ⟨false, [⟨"c1", true, true, [some "m1"]⟩]⟩ = [] ∧
    discover_all_pairs
        ⟨true, [⟨"c1", true, true, [none, some "", some "  ", some "m1"]⟩]⟩ =
      discover_all_pairs
        (pruneMalformedRows
          ⟨true, [⟨"c1", true, true, [none, some "", some "  ", some "m1"]⟩]⟩) :=
  ⟨(discovery_skips_malformed ⟨false, [⟨"c1", true, true, [some "m1"]⟩]⟩).1 rfl,
   ((discovery_skips_malformed
      ⟨true, [⟨"c1", true, true, [none, some "", some "  ", some "m1"]⟩]⟩).2.1).symm⟩

/-- C9: along every schedulable interleaving of a chunk's tasks — any
number of spawned tasks, e.g. 500 discovered units — the number of tasks
concurrently inside the shared semaphore never exceeds the configured
ceiling `MAX_CONCURRENCY`, which is 5. -/
theorem concurrency_ceiling (n : Nat) (s : SemState)
    (h : SemReachable n s) :
    s.running ≤ MAX_CONCURRENCY ∧ MAX_CONCURRENCY = 5 := by
  refine ⟨?_, rfl⟩
  have := (semReachable_invariant h).1
  omega

/-- Witness for C9: with 500 spawned tasks, the state after two acquires
is reachable and respects the ceiling. -/
theorem concurrency_ceiling_witness :
    (⟨498, 2, 0, 3⟩ : SemState).running ≤ MAX_CONCURRENCY ∧
      MAX_CONCURRENCY = 5 :=
  concurrency_ceiling 500 ⟨498, 2, 0, 3⟩
    (SemReachable.step
      (SemReachable.step SemReachable.init (SemStep.acquire 499 0 0 4))
      (SemStep.acquire 498 1 0 3))

/-- C10: in the miscited stage a row whose EID field is missing or empty
is kept by `read_input_csv`, and its storage folder
`Path(DOWNLOADS_DIR) / ""` resolves to the downloads root itself; since
module import creates that root for the log file, the row is never
reported not_started — it is reported fail unless a `success.txt` or
`empty.txt` sentinel exists directly under the root. -/
theorem empty_eid_resolves_to_root (fs : FS) (t : String) (rows : List Row)
    (hrow : (⟨"", t⟩ : Row) ∈ rows) :
    folderPathOf ⟨"", t⟩ = DOWNLOADS_DIR ∧
    (⟨"", t⟩ : Row) ∈ read_input_csv true rows ∧
    (moduleImportInit fs).exists DOWNLOADS_DIR = true ∧
    statusOfRow (moduleImportInit fs) ⟨"", t⟩ ≠ .not_started ∧
    ((moduleImportInit fs).exists (successFileOf DOWNLOADS_DIR) = false →
      (moduleImportInit fs).exists (emptyFileOf DOWNLOADS_DIR) = false →
      statusOfRow (moduleImportInit fs) ⟨"", t⟩ = .fail) := by
  have hfold : folderPathOf ⟨"", t⟩ = DOWNLOADS_DIR := by
    simp [folderPathOf, pJoin]
  have hroot : (moduleImportInit fs).exists DOWNLOADS_DIR = true :=
    (FS.exists_mkdirP fs DOWNLOADS_DIR DOWNLOADS_DIR).mpr
      (Or.inl (self_mem_ancestorsOf (by decide)))
  refine ⟨hfold, by simpa [read_input_csv] using hrow, hroot, ?_, ?_⟩
  · cases hs : (moduleImportInit fs).exists (successFileOf DOWNLOADS_DIR) <;>
      cases he : (moduleImportInit fs).exists (emptyFileOf DOWNLOADS_DIR) <;>
        simp [statusOfRow, hfold, hroot, hs, he]
  · intro hs he
    simp [statusOfRow, hfold, hroot, hs, he]

/-- Witness for C10 at a concrete input: on a fresh filesystem after
module import, the empty-EID row reads fail. -/
theorem empty_eid_resolves_to_root_witness :
    statusOfRow (moduleImportInit ⟨[]⟩) ⟨"", "some title"⟩ = .fail :=
  (empty_eid_resolves_to_root ⟨[]⟩ "some title" [⟨"", "some title"⟩]
      (by decide)).2.2.2.2 (by decide) (by decide)

end Scopus
